import Mathlib

/-!
Verification of the cardiovascular risk assessment core of src/app.py.
The Streamlit widgets clamp the raw inputs; the core consists of the
feature engineering block (lines 141-162), the tiering block (lines
213-225), the advisory templates (doctor_summary, lines 164-203), the
artifact loader (load_model, lines 71-83) and the optional analysis
panel (lines 235-244). Numeric values are modelled over ℚ (Python ints
and floats), dictionaries as association lists with String keys.
-/

namespace CardioApp

set_option maxRecDepth 8000

/-- A patient profile as collected by the input widgets of app.py
(lines 101-137): gender, age, weight, systolic and diastolic blood
pressure, cholesterol and glucose levels, and the three lifestyle
flags smoke, alco, active. -/
structure PatientProfile where
  gender : ℤ
  age : ℤ
  weight : ℚ
  ap_hi : ℤ
  ap_lo : ℤ
  cholesterol : ℤ
  gluc : ℤ
  smoke : ℤ
  alco : ℤ
  active : ℤ
deriving DecidableEq

/-- The fixed height constant of app.py line 141: `height_m = 1.7`. -/
def height_m : ℚ := 17 / 10

/-- app.py line 142: `bmi = weight / (height_m ** 2)`. -/
def bmi (p : PatientProfile) : ℚ := p.weight / height_m ^ 2

/-- app.py line 143: `pulse_pressure = ap_hi - ap_lo`. -/
def pulse_pressure (p : PatientProfile) : ℤ := p.ap_hi - p.ap_lo

/-- app.py line 144: `health_index = (active + (1 - smoke) + (1 - alco)) / 3`
(Python true division, hence a rational value). -/
def health_index (p : PatientProfile) : ℚ :=
  ((p.active : ℚ) + (1 - (p.smoke : ℚ)) + (1 - (p.alco : ℚ))) / 3

/-- app.py line 145: `cholesterol_gluc_interaction = cholesterol * gluc`. -/
def cholesterol_gluc_interaction (p : PatientProfile) : ℤ := p.cholesterol * p.gluc

/-- The single-row dictionary built at app.py lines 147-161, before the
column selection: an ordered mapping from column name to numeric value. -/
def input_features (p : PatientProfile) : List (String × ℚ) :=
  [(("gender"), (p.gender : ℚ)),
   (("weight"), p.weight),
   (("ap_hi"), (p.ap_hi : ℚ)),
   (("ap_lo"), (p.ap_lo : ℚ)),
   (("cholesterol"), (p.cholesterol : ℚ)),
   (("gluc"), (p.gluc : ℚ)),
   (("smoke"), (p.smoke : ℚ)),
   (("alco"), (p.alco : ℚ)),
   (("active"), (p.active : ℚ)),
   (("age_years"), (p.age : ℚ)),
   (("bmi"), bmi p),
   (("pulse_pressure"), ((pulse_pressure p : ℤ) : ℚ)),
   (("health_index"), health_index p),
   (("cholesterol_gluc_interaction"), ((cholesterol_gluc_interaction p : ℤ) : ℚ))]

/-- The column selection `pd.DataFrame([...])[columns]` of app.py line 162:
each requested column is looked up in the computed row, in the requested
order; a requested column absent from the row is a KeyError (modelled as
`none`, the schema-mismatch failure), and computed columns that are not
requested are dropped. -/
def select_columns (row : List (String × ℚ)) : List String → Option (List (String × ℚ))
  | [] => some []
  | c :: cs => do
    let v ← List.lookup c row
    let rest ← select_columns row cs
    pure ((c, v) :: rest)

/-- app.py lines 147-162: `input_data = pd.DataFrame([...])[columns]`,
the feature vector reindexed to the expected columns of the artifact. -/
def input_data (p : PatientProfile) (columns : List String) :
    Option (List (String × ℚ)) :=
  select_columns (input_features p) columns

/-- The tier string produced at app.py lines 217-225 from
`risk_percentage = probability * 100`: below 30 percent low, below 60
percent medium, otherwise high. -/
def risk_level (probability : ℚ) : String :=
  let risk_percentage := probability * 100
  if risk_percentage < 30 then ("low")
  else if risk_percentage < 60 then ("medium")
  else ("high")

/-- The low-tier advisory template of app.py lines 166-176. -/
def low_doctor_summary : String :=
  "### 🩺 Doctor’s Summary\n"
  ++ "Your results suggest a **low risk** of cardiovascular disease at the moment.\n\n"
  ++ "**What this means:**\n"
  ++ "- Your current health indicators are within a generally safe range.\n\n"
  ++ "**What you should do:**\n"
  ++ "- Continue maintaining a healthy lifestyle\n"
  ++ "- Eat a balanced diet and stay physically active\n"
  ++ "- Get routine health checkups once a year\n\n"
  ++ "✅ No immediate medical concern is indicated."

/-- The medium-tier advisory template of app.py lines 179-190. -/
def medium_doctor_summary : String :=
  "### 🩺 Doctor’s Summary\n"
  ++ "Your results indicate a **moderate risk** of cardiovascular disease.\n\n"
  ++ "**What this means:**\n"
  ++ "- Some health or lifestyle factors may increase future risk if ignored.\n\n"
  ++ "**What you should do:**\n"
  ++ "- Improve physical activity and diet habits\n"
  ++ "- Reduce smoking or alcohol intake if applicable\n"
  ++ "- Monitor blood pressure and cholesterol regularly\n"
  ++ "- Consider consulting a healthcare professional for advice\n\n"
  ++ "⚠️ Early action can significantly reduce future risk."

/-- The high-tier advisory template of app.py lines 193-203. -/
def high_doctor_summary : String :=
  "### 🩺 Doctor’s Summary\n"
  ++ "Your results suggest a **high risk** of cardiovascular disease.\n\n"
  ++ "**What this means:**\n"
  ++ "- Multiple factors indicate a higher chance of heart-related issues.\n\n"
  ++ "**What you should do immediately:**\n"
  ++ "- Consult a doctor or healthcare professional as soon as possible\n"
  ++ "- Get a detailed medical evaluation\n"
  ++ "- Follow professional advice on medication, diet, and lifestyle changes\n\n"
  ++ "🚨 This result is **not a diagnosis**, but it should not be ignored."

/-- app.py lines 164-203: the advisory text keyed on the tier string;
any tier other than low and medium falls into the final else branch. -/
def doctor_summary (risk_level : String) : String :=
  if risk_level = ("low") then low_doctor_summary
  else if risk_level = ("medium") then medium_doctor_summary
  else high_doctor_summary

/-- The full per-request assessment pipeline of app.py (lines 147-162 and
213-232): build the reindexed feature row, score it with the loaded
classifier's probability of the positive class, bucket into a tier, and
attach the advisory text. `predict` stands for the opaque
`model.predict_proba(...)[0][1]` call. -/
def assess (predict : List (String × ℚ) → ℚ) (columns : List String)
    (p : PatientProfile) : Option (ℚ × String × String) :=
  (input_data p columns).map (fun row =>
    let probability := predict row
    (probability, risk_level probability, doctor_summary (risk_level probability)))

/-- app.py lines 71-80: the loaded artifact bundle is a dictionary; the
script reads `saved["model"]` and `saved["columns"]`, and a missing key
is a fatal KeyError (modelled as `none`). `V` is the type of the stored
values, which the script does not inspect at this point. -/
def load_model {V : Type} (saved : List (String × V)) : Option (V × V) := do
  let model ← List.lookup ("model") saved
  let columns ← List.lookup ("columns") saved
  pure (model, columns)

/-- The rest of the script after the loader: every assessment consumes the
pair extracted by `load_model`, so it runs only when loading succeeded. -/
def run_app {V A : Type} (saved : List (String × V)) (score : V × V → A) :
    Option A :=
  (load_model saved).map score

/-- app.py line 83: `has_analysis = "train_accuracy" in saved`. -/
def has_analysis {V : Type} (saved : List (String × V)) : Bool :=
  (List.lookup ("train_accuracy") saved).isSome

/-- app.py lines 240-244: the metrics panel reads the three values
`saved["train_accuracy"]`, `saved["test_accuracy"]`, `saved["cv_score"]`;
a missing key is a fatal KeyError (modelled as `none`). -/
def analysis_metrics {V : Type} (saved : List (String × V)) :
    Option (V × V × V) := do
  let train ← List.lookup ("train_accuracy") saved
  let test ← List.lookup ("test_accuracy") saved
  let cv ← List.lookup ("cv_score") saved
  pure (train, test, cv)

/-- The end-to-end example profile of the spec: gender=1, age=40,
weight=70, ap_hi=120, ap_lo=80, cholesterol=1, gluc=1, smoke=0, alco=0,
active=1. -/
def profile0 : PatientProfile :=
  ⟨1, 40, 70, 120, 80, 1, 1, 0, 0, 1⟩

/-- A second profile sharing only the weight with `profile0`. -/
def profile1 : PatientProfile :=
  ⟨0, 63, 70, 190, 50, 3, 2, 1, 1, 0⟩

/-- An artifact bundle carrying all three evaluation metrics. -/
def saved0 : List (String × ℚ) :=
  [(("train_accuracy"), 4/5), (("test_accuracy"), 3/4), (("cv_score"), 7/10)]

/-- An artifact bundle carrying only the detection key `train_accuracy`. -/
def saved_partial : List (String × ℚ) :=
  [(("train_accuracy"), 4/5)]

/- ------------------------------------------------------------------ -/
/- Helper lemmas -/
/- ------------------------------------------------------------------ -/

theorem select_columns_keys (row : List (String × ℚ)) :
    ∀ (cols : List String) (out : List (String × ℚ)),
      select_columns row cols = some out → out.map Prod.fst = cols := by
  intro cols
  induction cols with
  | nil =>
    intro out h
    simp only [select_columns, Option.some.injEq] at h
    subst h
    rfl
  | cons c cs ih =>
    intro out h
    simp only [select_columns] at h
    cases hl : List.lookup c row with
    | none => rw [hl] at h; simp at h
    | some v =>
      rw [hl] at h
      cases hr : select_columns row cs with
      | none => rw [hr] at h; simp at h
      | some rest =>
        rw [hr] at h
        simp at h
        subst h
        simp [ih rest hr]

theorem select_columns_eq_none_iff (row : List (String × ℚ)) :
    ∀ cols : List String,
      select_columns row cols = none ↔ ∃ c ∈ cols, List.lookup c row = none := by
  intro cols
  induction cols with
  | nil => simp [select_columns]
  | cons c cs ih =>
    cases hl : List.lookup c row with
    | none =>
      simp only [select_columns, hl, Option.none_bind]
      constructor
      · intro _
        exact ⟨c, List.mem_cons_self c cs, hl⟩
      · intro _
        rfl
    | some v =>
      simp only [select_columns, hl, Option.some_bind]
      constructor
      · intro h
        cases hr : select_columns row cs with
        | none =>
          obtain ⟨d, hd, hdn⟩ := ih.mp hr
          exact ⟨d, List.mem_cons_of_mem c hd, hdn⟩
        | some rest => rw [hr] at h; simp at h
      · rintro ⟨d, hd, hdn⟩
        rcases List.mem_cons.mp hd with rfl | hd
        · rw [hdn] at hl; cases hl
        · rw [ih.mpr ⟨d, hd, hdn⟩]
          rfl

theorem lookup_eq_none_of_not_mem_keys {β : Type} (c : String) :
    ∀ l : List (String × β), ¬ c ∈ l.map Prod.fst → List.lookup c l = none := by
  intro l
  induction l with
  | nil => intro _; rfl
  | cons kv t ih =>
    intro h
    simp only [List.map_cons, List.mem_cons, not_or] at h
    obtain ⟨h1, h2⟩ := h
    simp [List.lookup, beq_false_of_ne h1, ih h2]

/- ------------------------------------------------------------------ -/
/- Claim theorems -/
/- ------------------------------------------------------------------ -/

/-- C1: for every probability p in [0, 1], tiering is by the percentage
p * 100 with half-open thresholds: strictly below 30 gives low, in
[30, 60) gives medium, at or above 60 gives high; in particular the
boundary probabilities 0.30 and 0.60 land in medium and high. -/
theorem risk_level_thresholds (p : ℚ) (h0 : 0 ≤ p) (h1 : p ≤ 1) :
    (p * 100 < 30 → risk_level p = "low")
    ∧ (30 ≤ p * 100 → p * 100 < 60 → risk_level p = "medium")
    ∧ (60 ≤ p * 100 → risk_level p = "high")
    ∧ risk_level (30/100) = "medium"
    ∧ risk_level (60/100) = "high" := by
  refine ⟨?_, ?_, ?_, ?_, ?_⟩
  · intro h
    simp only [risk_level]
    rw [if_pos h]
  · intro h30 h60
    simp only [risk_level]
    rw [if_neg (not_lt.mpr h30), if_pos h60]
  · intro h60
    simp only [risk_level]
    rw [if_neg (not_lt.mpr (by linarith)), if_neg (not_lt.mpr h60)]
  · norm_num [risk_level]
  · norm_num [risk_level]

/-- Witness for C1 at the concrete probability 1/2 (50 percent). -/
theorem risk_level_thresholds_witness :
    (0 : ℚ) ≤ 1/2 ∧ (1/2 : ℚ) ≤ 1 ∧ risk_level (1/2) = "medium" :=
  ⟨by norm_num, by norm_num,
    (risk_level_thresholds (1/2) (by norm_num) (by norm_num)).2.1
      (by norm_num) (by norm_num)⟩

/-- C3: bmi equals weight divided by the square of the fixed constant
height 1.7; it depends on no per-patient height (two profiles agreeing on
weight agree on bmi), and weight 70 gives 7000/289, within 0.01 of 24.22. -/
theorem bmi_fixed_height (p q : PatientProfile) (hw : p.weight = q.weight) :
    bmi p = p.weight / height_m ^ 2
    ∧ height_m = 17 / 10
    ∧ bmi p = bmi q
    ∧ (p.weight = 70 → bmi p = 7000 / 289 ∧ |bmi p - 2422/100| < 1/100) := by
  refine ⟨rfl, rfl, ?_, ?_⟩
  · simp [bmi, hw]
  · intro h
    have hb : bmi p = 7000 / 289 := by
      simp only [bmi, height_m, h]
      norm_num
    refine ⟨hb, ?_⟩
    rw [hb, abs_lt]
    constructor <;> norm_num

/-- Witness for C3 at two concrete profiles of weight 70 that differ in
every other field. -/
theorem bmi_fixed_height_witness :
    bmi profile0 = 7000 / 289 ∧ bmi profile0 = bmi profile1 :=
  ⟨((bmi_fixed_height profile0 profile1 rfl).2.2.2 rfl).1,
    (bmi_fixed_height profile0 profile1 rfl).2.2.1⟩

/-- C4: with the three lifestyle flags in {0, 1}, health_index equals
(active + (1 - smoke) + (1 - alco)) / 3, always lies in [0, 1], and the
extreme flag patterns give exactly 1 and exactly 0. -/
theorem health_index_spec (p : PatientProfile)
    (hact : p.active = 0 ∨ p.active = 1)
    (hsm : p.smoke = 0 ∨ p.smoke = 1)
    (hal : p.alco = 0 ∨ p.alco = 1) :
    health_index p
        = ((p.active : ℚ) + (1 - (p.smoke : ℚ)) + (1 - (p.alco : ℚ))) / 3
    ∧ 0 ≤ health_index p ∧ health_index p ≤ 1
    ∧ (p.active = 1 → p.smoke = 0 → p.alco = 0 → health_index p = 1)
    ∧ (p.active = 0 → p.smoke = 1 → p.alco = 1 → health_index p = 0) := by
  refine ⟨rfl, ?_, ?_, ?_, ?_⟩
  · rcases hact with h1 | h1 <;> rcases hsm with h2 | h2 <;>
      rcases hal with h3 | h3 <;> norm_num [health_index, h1, h2, h3]
  · rcases hact with h1 | h1 <;> rcases hsm with h2 | h2 <;>
      rcases hal with h3 | h3 <;> norm_num [health_index, h1, h2, h3]
  · intro h1 h2 h3
    norm_num [health_index, h1, h2, h3]
  · intro h1 h2 h3
    norm_num [health_index, h1, h2, h3]

/-- Witness for C4 at the concrete profile with active = 1, smoke = 0,
alco = 0. -/
theorem health_index_spec_witness : health_index profile0 = 1 :=
  (health_index_spec profile0 (Or.inr rfl) (Or.inl rfl)
      (Or.inl rfl)).2.2.2.1 rfl rfl rfl

/-- C7: pulse_pressure is the exact integer difference ap_hi - ap_lo with
no clamping: 120 over 80 gives 40, a diastolic value above the systolic
gives a negative result rather than an error, and the value is stored
unchanged in the computed feature row. -/
theorem pulse_pressure_spec (p : PatientProfile) :
    pulse_pressure p = p.ap_hi - p.ap_lo
    ∧ (p.ap_hi = 120 → p.ap_lo = 80 → pulse_pressure p = 40)
    ∧ (p.ap_hi < p.ap_lo → pulse_pressure p < 0)
    ∧ List.lookup ("pulse_pressure") (input_features p)
        = some ((p.ap_hi - p.ap_lo : ℤ) : ℚ) := by
  refine ⟨rfl, ?_, ?_, rfl⟩
  · intro h1 h2
    simp [pulse_pressure, h1, h2]
  · intro h
    simp only [pulse_pressure]
    omega

/-- Witness for C7 at the concrete profile with ap_hi = 120, ap_lo = 80. -/
theorem pulse_pressure_spec_witness : pulse_pressure profile0 = 40 :=
  (pulse_pressure_spec profile0).2.1 rfl rfl

/-- C2: for every profile and expected-column list, the reindexed feature
row has key list exactly the expected columns, in order; the row is
`none` (the fatal schema-mismatch KeyError, no partial result) exactly
when some expected column is absent from the computed row; and computed
columns that are not expected are dropped from the result. -/
theorem input_data_schema (p : PatientProfile) (columns : List String) :
    (∀ row, input_data p columns = some row → row.map Prod.fst = columns)
    ∧ (input_data p columns = none ↔
        ∃ c ∈ columns, List.lookup c (input_features p) = none)
    ∧ (∀ row c, input_data p columns = some row → ¬ c ∈ columns →
        List.lookup c row = none) := by
  refine ⟨?_, ?_, ?_⟩
  · intro row h
    exact select_columns_keys (input_features p) columns row h
  · exact select_columns_eq_none_iff (input_features p) columns
  · intro row c h hc
    have hk := select_columns_keys (input_features p) columns row h
    exact lookup_eq_none_of_not_mem_keys c row (by rw [hk]; exact hc)

/-- Witness for C2: a present pair of columns is returned in order, and a
misspelled column makes the whole reindexing fail. -/
theorem input_data_schema_witness :
    List.map Prod.fst
        ([(("age_years"), ((40 : ℤ) : ℚ)), (("gender"), ((1 : ℤ) : ℚ))])
      = ["age_years", "gender"]
    ∧ input_data profile0 (["health_index", "missing_feature"]) = none :=
  ⟨(input_data_schema profile0 (["age_years", "gender"])).1
      ([(("age_years"), ((40 : ℤ) : ℚ)), (("gender"), ((1 : ℤ) : ℚ))]) rfl,
    (input_data_schema profile0 (["health_index", "missing_feature"])).2.1.mpr
      ⟨("missing_feature"), (by decide), rfl⟩⟩

/-- C5: the assessment pipeline is a pure function of the profile, the
expected columns and the loaded classifier: two calls on equal inputs
return the same RiskAssessment, and on success the result is exactly the
probability, its tier and the tier's advisory text. -/
theorem assess_deterministic (predict : List (String × ℚ) → ℚ)
    (columns : List String) (p q : PatientProfile) (h : p = q) :
    assess predict columns p = assess predict columns q
    ∧ ∀ row, input_data p columns = some row →
        assess predict columns p
          = some (predict row, risk_level (predict row),
              doctor_summary (risk_level (predict row))) := by
  subst h
  refine ⟨rfl, ?_⟩
  intro row hrow
  simp [assess, hrow]

/-- Witness for C5: the pipeline on `profile0` with a constant classifier
returning 3/5, evaluated end to end. -/
theorem assess_deterministic_witness :
    assess (fun _ => (3/5 : ℚ)) (["bmi"]) profile0
      = some (3/5, risk_level (3/5), doctor_summary (risk_level (3/5))) :=
  (assess_deterministic (fun _ => (3/5 : ℚ)) (["bmi"]) profile0 profile0
      rfl).2 ([(("bmi"), bmi profile0)]) rfl

/-- C6: an artifact bundle missing the key `model` or the key `columns`
makes loading fail (KeyError), and then every continuation of the script
that consumes the loaded pair never runs an assessment. -/
theorem load_model_missing_key {V : Type} (saved : List (String × V))
    (h : List.lookup ("model") saved = none
      ∨ List.lookup ("columns") saved = none) :
    load_model saved = none
    ∧ ∀ (A : Type) (score : V × V → A), run_app saved score = none := by
  have hl : load_model saved = none := by
    rcases h with h | h
    · simp [load_model, h]
    · cases hm : List.lookup ("model") saved <;> simp [load_model, h, hm]
  refine ⟨hl, ?_⟩
  intro A score
  simp [run_app, hl]

/-- Witness for C6 at a concrete bundle that has `columns` but no
`model` key. -/
theorem load_model_missing_key_witness :
    load_model ([(("columns"), (0 : ℚ))]) = none
    ∧ run_app ([(("columns"), (0 : ℚ))]) (fun mc => mc) = none :=
  ⟨(load_model_missing_key ([(("columns"), (0 : ℚ))]) (Or.inl (by decide))).1,
    (load_model_missing_key ([(("columns"), (0 : ℚ))])
        (Or.inl (by decide))).2 (ℚ × ℚ) (fun mc => mc)⟩

/-- C8: the advisory text is keyed solely on the tier string and is always
one of the three fixed templates; the exact tiers low and medium select
their templates, everything else selects the high template, and the high
template contains the non-diagnostic disclaimer. -/
theorem doctor_summary_templates (t : String) :
    (doctor_summary t = low_doctor_summary
      ∨ doctor_summary t = medium_doctor_summary
      ∨ doctor_summary t = high_doctor_summary)
    ∧ (t = "low" → doctor_summary t = low_doctor_summary)
    ∧ (t = "medium" → doctor_summary t = medium_doctor_summary)
    ∧ (t ≠ "low" → t ≠ "medium" → doctor_summary t = high_doctor_summary)
    ∧ (∃ pre post, high_doctor_summary = pre ++ "not a diagnosis" ++ post) := by
  refine ⟨?_, ?_, ?_, ?_, ?_⟩
  · by_cases h1 : t = "low"
    · exact Or.inl (by simp [doctor_summary, h1])
    · by_cases h2 : t = "medium"
      · exact Or.inr (Or.inl (by simp [doctor_summary, h1, h2]))
      · exact Or.inr (Or.inr (by simp [doctor_summary, h1, h2]))
  · intro h
    simp [doctor_summary, h]
  · intro h
    subst h
    rfl
  · intro h1 h2
    simp [doctor_summary, h1, h2]
  · refine ⟨"### 🩺 Doctor’s Summary\nYour results suggest a **high risk** of cardiovascular disease.\n\n**What this means:**\n- Multiple factors indicate a higher chance of heart-related issues.\n\n**What you should do immediately:**\n- Consult a doctor or healthcare professional as soon as possible\n- Get a detailed medical evaluation\n- Follow professional advice on medication, diet, and lifestyle changes\n\n🚨 This result is **", "**, but it should not be ignored.", ?_⟩
    rfl

/-- Witness for C8 at the concrete tier string medium. -/
theorem doctor_summary_templates_witness :
    doctor_summary ("medium") = medium_doctor_summary :=
  (doctor_summary_templates ("medium")).2.2.1 rfl

/-- C10: the advisory selection is total: every tier string other than the
exact strings low and medium, not only the string high, falls through to
the high-tier template, so no tier value is left without advisory text. -/
theorem doctor_summary_total (t : String)
    (h1 : t ≠ "low") (h2 : t ≠ "medium") :
    doctor_summary t = high_doctor_summary := by
  simp [doctor_summary, h1, h2]

/-- Witness for C10 at a tier string that is none of the three tiers. -/
theorem doctor_summary_total_witness :
    doctor_summary ("unexpected tier") = high_doctor_summary :=
  doctor_summary_total ("unexpected tier") (by decide) (by decide)

/-- Counterexample for C9: a bundle holding only `train_accuracy` makes
`has_analysis` offer the metrics panel, yet producing the three metric
values fails (KeyError on `test_accuracy`), refuting the claim that an
offered panel always produces all three metrics without failure. -/
theorem has_analysis_counterexample :
    has_analysis saved_partial = true ∧ analysis_metrics saved_partial = none :=
  ⟨rfl, rfl⟩

/-- C9 (amended): the metrics panel is offered exactly when the single
detection key `train_accuracy` is present; absence is not an error; and
when the panel is offered and the bundle also holds `test_accuracy` and
`cv_score`, all three metric values are produced without failure. -/
theorem analysis_metrics_spec {V : Type} (saved : List (String × V)) :
    (has_analysis saved = true
      ↔ ∃ v, List.lookup ("train_accuracy") saved = some v)
    ∧ (∀ train test cv,
        List.lookup ("train_accuracy") saved = some train →
        List.lookup ("test_accuracy") saved = some test →
        List.lookup ("cv_score") saved = some cv →
        has_analysis saved = true
          ∧ analysis_metrics saved = some (train, test, cv)) := by
  constructor
  · simp [has_analysis, Option.isSome_iff_exists]
  · intro train test cv h1 h2 h3
    exact ⟨by simp [has_analysis, h1], by simp [analysis_metrics, h1, h2, h3]⟩

/-- Witness for the amended C9 at a concrete bundle holding all three
metric keys. -/
theorem analysis_metrics_spec_witness :
    has_analysis saved0 = true
    ∧ analysis_metrics saved0 = some (4/5, 3/4, 7/10) :=
  (analysis_metrics_spec saved0).2 (4/5) (3/4) (7/10) rfl rfl rfl

end CardioApp
